import Mathlib

/-!
Verification of the layer/source readiness synchronization protocol and
popup component of `vue-maplibre-gl`.

The embedding follows the source files:
* `src/lib/components/layers/hillshade.layer.ts` — the layer binding:
  source resolution guard, the watcher over `[isLoaded, sourceRef]` with
  `{ immediate: true }`, and the disposable-layer teardown.
* `src/lib/components/popup.component.ts` — the popup component: setup
  branching (marker vs coordinates), exposed `remove()`, unmount hooks,
  and the `text` / `className` prop watchers.

JavaScript `boolean | undefined` values are `Option Bool`, optional
strings are `Option String`; JS truthiness of a string is "non-empty".
Engine calls (`addLayer`, `removeLayer`, `Popup#remove`, ...) are modelled
as updates of an explicit engine-facing state, with counters recording how
often each imperative call was issued.
-/

/-- JS truthiness of an optional string: `!x` is true exactly when the
value is `undefined` or the empty string. `strFalsy x = true` models
`!x` being true. -/
def strFalsy : Option String → Bool
  | none => true
  | some s => s = ""

/-- JS truthiness of an optional string: truthy iff present and non-empty. -/
def strTruthy (x : Option String) : Bool := !(strFalsy x)

/-! ## Layer binding (hillshade.layer.ts) -/

/-- The observable state of one layer binding together with the slice of
engine state it owns.  `il` / `src` record the current values of the
readiness tracker pair `(isLoaded, sourceRef)` as last observed;
`src = none` models `undefined` (no source dependency declared). -/
structure LayerState where
  mounted : Bool
  /-- `true` when setup emitted the missing-source diagnostic (`warn`). -/
  warned : Bool
  /-- `true` when setup completed: `useDisposableLayer` cleanup registered
  and the `watch` on `[isLoaded, sourceRef]` active. -/
  watcherActive : Bool
  /-- the layer is currently present in the engine -/
  layerPresent : Bool
  /-- forwarded event listeners are currently attached -/
  listenersAttached : Bool
  /-- current value of the engine-ready flag -/
  il : Bool
  /-- current tri-state source readiness -/
  src : Option Bool
  /-- number of `map.addLayer` calls issued by this binding -/
  addLayerCalls : Nat
  /-- number of `map.removeLayer` calls issued by this binding -/
  removeLayerCalls : Nat
  deriving Repr, DecidableEq

/-- The gating condition of the watcher body, from
`hillshade.layer.ts` line 34: `il && (src || src === undefined)`. -/
def gateSatisfied (il : Bool) (src : Option Bool) : Bool :=
  il && (src == some true || src == none)

/-- The watcher callback body, `hillshade.layer.ts` lines 33–38: when the
gate is satisfied, call `map.addLayer(...)` and
`LayerLib.registerLayerEvents(...)`; otherwise do nothing. -/
def watchCb (il : Bool) (src : Option Bool) (s : LayerState) : LayerState :=
  if gateSatisfied il src then
    { s with layerPresent := true, listenersAttached := true,
             addLayerCalls := s.addLayerCalls + 1 }
  else s

/-- Modelled from the spec: the body of `useDisposableLayer`
(`src/lib/composable/useDisposableLayer.ts` is not part of the sources);
§4.2 Teardown: "when the component is unmounted, remove the layer and all
forwarded listeners from the engine unconditionally, regardless of current
readiness state". -/
def disposeLayer (s : LayerState) : LayerState :=
  { s with layerPresent := false, listenersAttached := false,
           removeLayerCalls := s.removeLayerCalls + 1 }

/-- The `setup` function of the hillshade layer component,
`hillshade.layer.ts` lines 16–41, run at mount with the initial values
`il0`, `src0` of the readiness pair:
* lines 20–23: if neither an injected source id nor a `source` prop is
  present (JS-falsy), `warn` and return early — no watcher, no cleanup;
* line 31: `useDisposableLayer` registers the unmount cleanup;
* lines 33–38: `watch([isLoaded, sourceRef], ..., { immediate: true })`
  fires the callback immediately with the current values of the pair. -/
def setup (sourceId propsSource : Option String) (il0 : Bool)
    (src0 : Option Bool) : LayerState :=
  let s0 : LayerState :=
    { mounted := true, warned := false, watcherActive := false,
      layerPresent := false, listenersAttached := false,
      il := il0, src := src0, addLayerCalls := 0, removeLayerCalls := 0 }
  if strFalsy sourceId && strFalsy propsSource then
    { s0 with warned := true }
  else
    watchCb il0 src0 { s0 with watcherActive := true }

/-- Events delivered to a layer binding after setup: a notification of the
watched pair `(isLoaded, sourceRef)` changing, or the component being
unmounted. -/
inductive LayerEvent where
  | observe (il : Bool) (src : Option Bool)
  | unmount
  deriving Repr, DecidableEq

/-- One step of the layer binding. An observation updates the recorded
readiness pair and, when the component is mounted and its watcher active,
runs the watcher callback. Unmount runs the `useDisposableLayer` cleanup
when it was registered, then marks the component unmounted. -/
def layerStep (s : LayerState) (e : LayerEvent) : LayerState :=
  match e with
  | .observe il src =>
      let s' := { s with il := il, src := src }
      if s.mounted && s.watcherActive then watchCb il src s' else s'
  | .unmount =>
      if s.mounted then
        if s.watcherActive then { disposeLayer s with mounted := false }
        else { s with mounted := false }
      else s

/-- Run a layer binding over a sequence of events. -/
def layerRun (s : LayerState) (es : List LayerEvent) : LayerState :=
  es.foldl layerStep s

/-! ## Popup component (popup.component.ts) -/

/-- Geographical coordinates; the component treats them opaquely. -/
abbrev LngLat := Int × Int

/-- The engine-facing state of one popup: where it is attached, its
content, its prop-managed container classes, and which of the component's
`open`/`close` listeners are attached. -/
structure PopupState where
  /-- attached to a marker via `marker.setPopup(popup)` -/
  onMarker : Bool
  /-- added to the map via `popup.addTo(map)` -/
  onMap : Bool
  lngLat : Option LngLat
  textContent : String
  /-- container class names managed through add/removeClassName -/
  classes : List String
  openListener : Bool
  closeListener : Bool
  /-- number of `popup.remove()` calls issued -/
  removeCalls : Nat
  deriving Repr, DecidableEq

/-- Engine `Popup#addClassName`: DOM classList add — no duplicate token. -/
def addClassName (cs : List String) (c : String) : List String :=
  if c ∈ cs then cs else cs ++ [c]

/-- Engine `Popup#removeClassName`: DOM classList remove. -/
def removeClassName (cs : List String) (c : String) : List String :=
  cs.filter (fun x => x ≠ c)

/-- Engine `Popup#remove`: removes the popup from the map. -/
def popupRemove (s : PopupState) : PopupState :=
  { s with onMap := false, removeCalls := s.removeCalls + 1 }

/-- The injected marker handle: `inject(markerSymbol, undefined)` yields
either nothing, a handle whose `.value` is null, or a handle with a live
marker.  `markerPresent` models the test `marker && marker.value`. -/
def markerPresent : Option (Option Unit) → Bool
  | some (some _) => true
  | _ => false

/-- The `setup` function of the popup component,
`popup.component.ts` lines 127–210, up to the end of the synchronous
setup body:
* line 132: `new Popup(props)` — the engine attaches `props.className`
  (when truthy) to the popup container;
* lines 134–138: if an injected marker handle is present and non-null,
  `marker.value.setPopup(popup)`; otherwise, if `props.coordinates` and
  the map handle are present, `popup.setLngLat(coords).addTo(map)`;
* lines 140–142: if `props.text` is truthy, `popup.setText(text)`;
* lines 152–153: `emitEvent` attaches the `open` and `close` listeners. -/
def popupSetup (marker : Option (Option Unit)) (map : Option Unit)
    (coordinates : Option LngLat) (text0 className0 : Option String) :
    PopupState :=
  let s : PopupState :=
    { onMarker := false, onMap := false, lngLat := none, textContent := "",
      classes := if strTruthy className0 then [className0.getD ""] else [],
      openListener := false, closeListener := false, removeCalls := 0 }
  let s :=
    if markerPresent marker then { s with onMarker := true }
    else if coordinates.isSome && map.isSome then
      { s with lngLat := coordinates, onMap := true }
    else s
  let s :=
    if strTruthy text0 then { s with textContent := text0.getD "" } else s
  { s with openListener := true, closeListener := true }

/-- The exposed `remove()` operation, `popup.component.ts`
lines 155–159: `popup.remove()`. -/
def popupRemoveExposed (s : PopupState) : PopupState := popupRemove s

/-- Unmounting the popup component runs the registered `onBeforeUnmount`
hooks in registration order: the two `emitEvent` hooks detach the `open`
and `close` listeners (lines 147–149), then the final hook calls
`popup.remove()` (lines 204–206). -/
def popupUnmount (s : PopupState) : PopupState :=
  popupRemove { s with openListener := false, closeListener := false }

/-- The `text` prop watcher callback, `popup.component.ts` lines 170–173:
`popup.setText(v || "")`. -/
def textWatchCb (v : Option String) (s : PopupState) : PopupState :=
  { s with textContent := if strTruthy v then v.getD "" else "" }

/-- The `className` prop watcher callback, `popup.component.ts`
lines 182–192: if the previous value is truthy, remove it from the
container; then, if the new value is truthy, add it. -/
def classNameWatchCb (value previous : Option String) (s : PopupState) :
    PopupState :=
  let s :=
    if strTruthy previous then
      { s with classes := removeClassName s.classes (previous.getD "") }
    else s
  if strTruthy value then
    { s with classes := addClassName s.classes (value.getD "") }
  else s

/-- The prop-managed class list contributed by one value of the
`className` prop: the single class when truthy, nothing otherwise. -/
def propClassList (v : Option String) : List String :=
  if strTruthy v then [v.getD ""] else []

/-! ## Theorems -/

/-- C3: an observation of the pair `(il, src)` by an active layer binding
issues an add-layer call exactly when `il` is true and `src` is either
`true` or `undefined`; in particular `src = false` blocks creation,
`src = undefined` is treated as always-satisfied, and no add-layer call
occurs while `il` is false. -/
theorem addLayer_call_iff_gate (il : Bool) (src : Option Bool)
    (s : LayerState) :
    (watchCb il src s).addLayerCalls
      = s.addLayerCalls
          + (if il = true ∧ (src = some true ∨ src = none) then 1 else 0)
    ∧ watchCb false src s = s
    ∧ watchCb il (some false) s = s := by
  refine ⟨?_, ?_, ?_⟩ <;>
    cases il <;> rcases src with _ | (_ | _) <;>
      simp [watchCb, gateSatisfied]

/-- C10: when the `text` prop is cleared to `undefined`, the popup's text
content is set to the empty string; for any defined new value the popup's
text is set to exactly that value. -/
theorem text_clear_sets_empty (s : PopupState) (t : String) :
    (textWatchCb none s).textContent = ""
    ∧ (textWatchCb (some t) s).textContent = t := by
  constructor
  · simp [textWatchCb, strTruthy, strFalsy]
  · by_cases h : t = "" <;> simp [textWatchCb, strTruthy, strFalsy, h]

/-- C7: the popup exposes an explicit remove operation that removes the
popup from the engine, and unmounting removes the popup and detaches its
open/close event listeners. -/
theorem popup_remove_and_unmount_detach (s : PopupState) :
    (popupRemoveExposed s).onMap = false
    ∧ (popupRemoveExposed s).removeCalls = s.removeCalls + 1
    ∧ (popupUnmount s).onMap = false
    ∧ (popupUnmount s).openListener = false
    ∧ (popupUnmount s).closeListener = false
    ∧ (popupUnmount s).removeCalls = s.removeCalls + 1 := by
  simp [popupRemoveExposed, popupUnmount, popupRemove]

/-- C8: at popup setup, the marker branch and the map branch are mutually
exclusive: the popup is attached to a marker exactly when the injected
marker handle is present and non-null, and the setLngLat-then-addTo path
runs exactly when no such marker is present and both coordinates and a
map handle are available — even when a coordinates prop is supplied
alongside a marker. -/
theorem popup_marker_branch_exclusive (marker : Option (Option Unit))
    (map : Option Unit) (coords : Option LngLat) (t c : Option String) :
    (popupSetup marker map coords t c).onMarker = markerPresent marker
    ∧ (popupSetup marker map coords t c).onMap
        = (!markerPresent marker && (coords.isSome && map.isSome)) := by
  unfold popupSetup
  cases hm : markerPresent marker <;>
    cases hc : coords.isSome <;> cases hp : map.isSome <;>
      cases ht : strTruthy t <;>
        simp [hm, hc, hp, ht]

/-- C9: when the `className` prop changes, the previous prop-managed class
(when non-empty) is removed from the container before the new one (when
non-empty) is added, so the prop-managed class list always holds at most
one class — exactly the current truthy value. -/
theorem className_at_most_one_managed (value previous : Option String)
    (s : PopupState) :
    (classNameWatchCb value previous
        { s with classes := propClassList previous }).classes
      = propClassList value
    ∧ (classNameWatchCb value previous
        { s with classes := propClassList previous }).classes.length ≤ 1 := by
  have h : (classNameWatchCb value previous
      { s with classes := propClassList previous }).classes
        = propClassList value := by
    rcases previous with _ | p <;> rcases value with _ | v <;>
      simp only [classNameWatchCb, propClassList, strTruthy, strFalsy,
        Bool.not_true, Bool.not_false, decide_eq_true_eq]
    · simp
    · by_cases hv : v = "" <;> simp [hv, addClassName]
    · by_cases hp : p = "" <;> simp [hp, removeClassName]
    · by_cases hp : p = "" <;> by_cases hv : v = "" <;>
        simp [hp, hv, removeClassName, addClassName]
  refine ⟨h, ?_⟩
  rw [h]
  unfold propClassList
  split <;> simp

/-- C5: when the gating pair is already satisfied at observation-setup
time (engine-ready true, source readiness true or undefined) and source
resolution succeeded, the create-layer call runs immediately within setup
itself: the immediate watcher invocation issues the add-layer call. -/
theorem immediate_satisfied_creates_at_setup
    (sourceId propsSource : Option String) (il0 : Bool) (src0 : Option Bool)
    (hres : (strFalsy sourceId && strFalsy propsSource) = false)
    (hgate : gateSatisfied il0 src0 = true) :
    (setup sourceId propsSource il0 src0).addLayerCalls = 1
    ∧ (setup sourceId propsSource il0 src0).layerPresent = true := by
  simp [setup, hres, watchCb, hgate]

/-- Witness for C5 at a concrete input: a layer with source prop "srcX",
engine ready and source readiness true at setup time. -/
theorem immediate_satisfied_creates_at_setup_witness :
    ((strFalsy (some "srcX") && strFalsy none) = false
      ∧ gateSatisfied true (some true) = true)
    ∧ ((setup (some "srcX") none true (some true)).addLayerCalls = 1
      ∧ (setup (some "srcX") none true (some true)).layerPresent = true) :=
  ⟨by decide,
   immediate_satisfied_creates_at_setup (some "srcX") none true (some true)
     (by decide) (by decide)⟩

/-- Events never issue engine calls through a binding whose watcher was
never registered: the add-layer counter stays put and the watcher stays
inactive. -/
theorem layerRun_inactive (es : List LayerEvent) :
    ∀ s : LayerState, s.watcherActive = false →
      (layerRun s es).addLayerCalls = s.addLayerCalls
      ∧ (layerRun s es).watcherActive = false := by
  induction es with
  | nil => exact fun s h => ⟨rfl, h⟩
  | cons e es ih =>
      intro s h
      have hstep : (layerStep s e).addLayerCalls = s.addLayerCalls
          ∧ (layerStep s e).watcherActive = false := by
        cases e with
        | observe il src => simp [layerStep, h]
        | unmount => cases hm : s.mounted <;> simp [layerStep, hm, h]
      have := ih (layerStep s e) hstep.2
      exact ⟨by rw [layerRun] at *; simpa [hstep.1] using this.1, this.2⟩

/-- C4: a layer component mounted with neither an injected source id nor a
source prop emits the diagnostic and aborts initialization: no watcher is
registered, and no add-layer call ever occurs for that component over any
subsequent sequence of events. -/
theorem missing_source_warns_and_never_adds (il0 : Bool) (src0 : Option Bool)
    (es : List LayerEvent) :
    (setup none none il0 src0).warned = true
    ∧ (setup none none il0 src0).watcherActive = false
    ∧ (layerRun (setup none none il0 src0) es).addLayerCalls = 0 := by
  have hsetup : (setup none none il0 src0).warned = true
      ∧ (setup none none il0 src0).watcherActive = false
      ∧ (setup none none il0 src0).addLayerCalls = 0 := by
    simp [setup, strFalsy]
  have h := layerRun_inactive es (setup none none il0 src0) hsetup.2.1
  exact ⟨hsetup.1, hsetup.2.1, by rw [h.1, hsetup.2.2]⟩

/-- C1 fails on the code: the watcher has no presence check.  With source
prop "srcX", engine-ready true and source readiness true at setup, the
layer is created; source readiness then toggles false and back to true
while the layer is never removed (zero remove-layer calls, present
throughout), yet a second add-layer call is issued. -/
theorem addLayer_repeated_while_present_cex :
    (setup (some "srcX") none true (some true)).layerPresent = true
    ∧ (layerRun (setup (some "srcX") none true (some true))
        [LayerEvent.observe true (some false)]).layerPresent = true
    ∧ (layerRun (setup (some "srcX") none true (some true))
        [LayerEvent.observe true (some false),
         LayerEvent.observe true (some true)]).layerPresent = true
    ∧ (layerRun (setup (some "srcX") none true (some true))
        [LayerEvent.observe true (some false),
         LayerEvent.observe true (some true)]).removeLayerCalls = 0
    ∧ (layerRun (setup (some "srcX") none true (some true))
        [LayerEvent.observe true (some false),
         LayerEvent.observe true (some true)]).addLayerCalls = 2 := by
  decide

set_option linter.unusedVariables false in
/-- C1 (amended): the watcher does not test for presence; every satisfied
observation delivered to a mounted, active binding issues a further
add-layer call, even while the layer is already present in the engine. -/
theorem addLayer_on_every_satisfied_observation (s : LayerState) (il : Bool)
    (src : Option Bool) (hm : s.mounted = true) (hw : s.watcherActive = true)
    (hp : s.layerPresent = true) (hg : gateSatisfied il src = true) :
    (layerStep s (LayerEvent.observe il src)).addLayerCalls
      = s.addLayerCalls + 1
    ∧ (layerStep s (LayerEvent.observe il src)).layerPresent = true := by
  simp [layerStep, hm, hw, watchCb, hg]

/-- Witness for the amended C1 at a concrete input: the binding created at
setup receives one more satisfied observation. -/
theorem addLayer_on_every_satisfied_observation_witness :
    ((setup (some "srcX") none true (some true)).mounted = true
      ∧ (setup (some "srcX") none true (some true)).watcherActive = true
      ∧ (setup (some "srcX") none true (some true)).layerPresent = true
      ∧ gateSatisfied true (some true) = true)
    ∧ ((layerStep (setup (some "srcX") none true (some true))
          (LayerEvent.observe true (some true))).addLayerCalls
        = (setup (some "srcX") none true (some true)).addLayerCalls + 1
      ∧ (layerStep (setup (some "srcX") none true (some true))
          (LayerEvent.observe true (some true))).layerPresent = true) :=
  ⟨by decide,
   addLayer_on_every_satisfied_observation
     (setup (some "srcX") none true (some true)) true (some true)
     (by decide) (by decide) (by decide) (by decide)⟩

/-- C2 fails on the code: in the reachable state where the layer was
created and source readiness then flipped back to false, the layer is
still present although the claimed invariant's right-hand side is false. -/
theorem present_invariant_cex :
    ¬ ((layerStep (setup (some "srcX") none true (some true))
          (LayerEvent.observe true (some false))).layerPresent = true
        ↔ ((layerStep (setup (some "srcX") none true (some true))
              (LayerEvent.observe true (some false))).il = true
          ∧ ((layerStep (setup (some "srcX") none true (some true))
                (LayerEvent.observe true (some false))).src = some true
            ∨ (layerStep (setup (some "srcX") none true (some true))
                (LayerEvent.observe true (some false))).src = none)
          ∧ (layerStep (setup (some "srcX") none true (some true))
              (LayerEvent.observe true (some false))).mounted = true)) := by
  decide

/-- The presence invariant that actually holds: a layer is present exactly
when the component is mounted and at least one add-layer call was issued,
and presence implies the watcher was registered. -/
def presentInv (s : LayerState) : Prop :=
  s.layerPresent = (s.mounted && !(s.addLayerCalls == 0))
  ∧ (s.layerPresent = true → s.watcherActive = true)

/-- Every state produced by `setup` satisfies the presence invariant. -/
theorem presentInv_setup (a b : Option String) (il0 : Bool)
    (src0 : Option Bool) : presentInv (setup a b il0 src0) := by
  unfold setup watchCb presentInv
  split
  · simp
  · split <;> simp

/-- The presence invariant is preserved by every event. -/
theorem presentInv_step (s : LayerState) (e : LayerEvent)
    (h : presentInv s) : presentInv (layerStep s e) := by
  obtain ⟨h1, h2⟩ := h
  cases e with
  | observe il src =>
      by_cases hm : (s.mounted && s.watcherActive) = true
      · have hmt : s.mounted = true := (Bool.and_eq_true _ _ |>.mp hm).1
        have hwt : s.watcherActive = true := (Bool.and_eq_true _ _ |>.mp hm).2
        by_cases hg : gateSatisfied il src = true
        · exact ⟨by simp [layerStep, hm, watchCb, hg, hmt, hwt],
                 by simp [layerStep, hm, watchCb, hg, hmt, hwt]⟩
        · exact ⟨by simpa [layerStep, hm, watchCb, hg] using h1,
                 by simpa [layerStep, hm, watchCb, hg] using h2⟩
      · exact ⟨by simpa [layerStep, hm] using h1,
               by simpa [layerStep, hm] using h2⟩
  | unmount =>
      by_cases hm : s.mounted = true
      · by_cases hw : s.watcherActive = true
        · exact ⟨by simp [layerStep, hm, hw, disposeLayer],
                 by simp [layerStep, hm, hw, disposeLayer]⟩
        · have hlp : s.layerPresent = false := by
            cases hl : s.layerPresent
            · rfl
            · exact absurd (h2 hl) hw
          exact ⟨by simp [layerStep, hm, hw, hlp],
                 by simp [layerStep, hm, hw, hlp]⟩
      · exact ⟨by simpa [layerStep, hm] using h1,
               by simpa [layerStep, hm] using h2⟩

/-- The presence invariant is preserved by any sequence of events. -/
theorem presentInv_run (es : List LayerEvent) :
    ∀ s : LayerState, presentInv s → presentInv (layerRun s es) := by
  induction es with
  | nil => exact fun _ h => h
  | cons e es ih =>
      intro s h
      exact ih (layerStep s e) (presentInv_step s e h)

/-- C2 (amended): in every state reachable from setup, a layer is present
in the engine if and only if the owning component is still mounted and the
binding has issued at least one add-layer call; in particular source
readiness flipping back to false after creation leaves the layer present. -/
theorem layerPresent_iff_mounted_and_created
    (sourceId propsSource : Option String) (il0 : Bool) (src0 : Option Bool)
    (es : List LayerEvent) :
    (layerRun (setup sourceId propsSource il0 src0) es).layerPresent = true
      ↔ ((layerRun (setup sourceId propsSource il0 src0) es).mounted = true
        ∧ (layerRun (setup sourceId propsSource il0 src0) es).addLayerCalls
            ≠ 0) := by
  have h :=
    (presentInv_run es _ (presentInv_setup sourceId propsSource il0 src0)).1
  rw [h]
  simp [Bool.and_eq_true]

/-- After unmount, no event changes the engine state of the binding: the
remove-layer counter, presence, listeners and mountedness are frozen. -/
theorem layerRun_unmounted_frozen (es : List LayerEvent) :
    ∀ s : LayerState, s.mounted = false →
      (layerRun s es).removeLayerCalls = s.removeLayerCalls
      ∧ (layerRun s es).layerPresent = s.layerPresent
      ∧ (layerRun s es).listenersAttached = s.listenersAttached
      ∧ (layerRun s es).mounted = false := by
  induction es with
  | nil => exact fun _ h => ⟨rfl, rfl, rfl, h⟩
  | cons e es ih =>
      intro s h
      have hstep : (layerStep s e).removeLayerCalls = s.removeLayerCalls
          ∧ (layerStep s e).layerPresent = s.layerPresent
          ∧ (layerStep s e).listenersAttached = s.listenersAttached
          ∧ (layerStep s e).mounted = false := by
        cases e with
        | observe il src => simp [layerStep, h]
        | unmount => simp [layerStep, h]
      have hrest := ih (layerStep s e) hstep.2.2.2
      refine ⟨?_, ?_, ?_, hrest.2.2.2⟩
      · rw [show layerRun s (e :: es) = layerRun (layerStep s e) es from rfl,
          hrest.1, hstep.1]
      · rw [show layerRun s (e :: es) = layerRun (layerStep s e) es from rfl,
          hrest.2.1, hstep.2.1]
      · rw [show layerRun s (e :: es) = layerRun (layerStep s e) es from rfl,
          hrest.2.2.1, hstep.2.2.1]

set_option linter.unusedVariables false in
/-- C6: unmounting a binding whose layer was created issues exactly one
remove-layer call — one at the unmount event and none afterwards over any
continuation — removes the layer and detaches the forwarded listeners,
regardless of the readiness flag and source readiness values at unmount
time. -/
theorem unmount_after_creation_removes_once (s : LayerState)
    (es : List LayerEvent) (hm : s.mounted = true)
    (hw : s.watcherActive = true) (hp : s.layerPresent = true) :
    (layerStep s LayerEvent.unmount).removeLayerCalls
      = s.removeLayerCalls + 1
    ∧ (layerStep s LayerEvent.unmount).layerPresent = false
    ∧ (layerStep s LayerEvent.unmount).listenersAttached = false
    ∧ (layerRun (layerStep s LayerEvent.unmount) es).removeLayerCalls
        = s.removeLayerCalls + 1 := by
  have hstep : layerStep s LayerEvent.unmount
      = { disposeLayer s with mounted := false } := by
    simp [layerStep, hm, hw]
  have hfrozen := layerRun_unmounted_frozen es (layerStep s LayerEvent.unmount)
    (by rw [hstep])
  refine ⟨?_, ?_, ?_, ?_⟩
  · rw [hstep]; rfl
  · rw [hstep]; rfl
  · rw [hstep]; rfl
  · rw [hfrozen.1, hstep]; rfl

/-- Witness for C6 at a concrete input: the binding created at setup,
unmounted while source readiness has meanwhile flipped to false, with one
further observation delivered after unmount. -/
theorem unmount_after_creation_removes_once_witness :
    ((setup (some "srcX") none true (some true)).mounted = true
      ∧ (setup (some "srcX") none true (some true)).watcherActive = true
      ∧ (setup (some "srcX") none true (some true)).layerPresent = true)
    ∧ ((layerStep (setup (some "srcX") none true (some true))
          LayerEvent.unmount).removeLayerCalls
        = (setup (some "srcX") none true (some true)).removeLayerCalls + 1
      ∧ (layerStep (setup (some "srcX") none true (some true))
          LayerEvent.unmount).layerPresent = false
      ∧ (layerStep (setup (some "srcX") none true (some true))
          LayerEvent.unmount).listenersAttached = false
      ∧ (layerRun (layerStep (setup (some "srcX") none true (some true))
            LayerEvent.unmount)
          [LayerEvent.observe true (some true)]).removeLayerCalls
        = (setup (some "srcX") none true (some true)).removeLayerCalls + 1) :=
  ⟨by decide,
   unmount_after_creation_removes_once
     (setup (some "srcX") none true (some true))
     [LayerEvent.observe true (some true)]
     (by decide) (by decide) (by decide)⟩
